import Mathlib

/-!
Verification of the `PictureAsset` React component
(`src/Frontend/React/picutreAsset.js`) against its natural-language
specification.

The component is embedded shallowly:

* JavaScript numbers are modelled by `JsNum` (a rational, `NaN`, or a signed
  infinity; the sign of zero is not modelled).  Prop values that may be a
  number, a string, `null` or `undefined` are modelled by `JsVal`, with JS
  truthiness as `JsVal.truthy`.
* The external Sanity URL builder (`imageUrlFor(image).width(w).format(f?).url()`)
  is an opaque parameter `buildUrl : Image → JsNum → Option String → String`;
  a `.format(f)` call corresponds to `some f`, its absence to `none`.
* The two pieces of per-instance React state (`show` from `useState(false)`
  and `inView` from `useInView({ triggerOnce: true })`) form `IState`; the
  two asynchronous signals (first viewport intersection, final image
  `onLoad`) are `Event`s acting on `IState` through `step`.
* One render pass is the pure function `render`, returning `Rendered`:
  the logged `null` return for invalid assets, the thrown configuration
  error, the plain `<img>` of the svg branch, or the full `Tree`
  (container, placeholder, optional aspect-ratio spacer, and — only when
  `inView` — the two `<source>` elements and the final `<img>`).

Numeric-string coercion (JS `ToNumber` on strings such as `"400"`) is not
modelled: string-valued `width`/`height` props are CSS strings like
`"100%"`, which coerce to `NaN`, and that is what `JsVal.toNumber` returns
for every string.  `toString` of an integral rational agrees with the JS
rendering of the corresponding integer, which covers every breakpoint the
component is used with.
-/

namespace PictureAsset

/-- A JavaScript number: a finite value (as a rational), `NaN`, or a signed
infinity.  Negative zero is identified with zero. -/
inductive JsNum where
  | num (q : ℚ)
  | nan
  | inf
  | ninf
deriving DecidableEq, Repr

namespace JsNum

/-- JS `<=` on numbers: any comparison with `NaN` is false. -/
def jsle : JsNum → JsNum → Bool
  | nan, _ => false
  | _, nan => false
  | num a, num b => decide (a ≤ b)
  | num _, inf => true
  | num _, ninf => false
  | inf, num _ => false
  | inf, inf => true
  | inf, ninf => false
  | ninf, _ => true

/-- JS number-to-string, as used by the template literal in the source. -/
def jstoString : JsNum → String
  | num q => toString q
  | nan => "NaN"
  | inf => "Infinity"
  | ninf => "-Infinity"

/-- JS division.  `x / 0` is `NaN` for `x = 0` and a signed infinity
otherwise (the sign of zero is not modelled). -/
def div : JsNum → JsNum → JsNum
  | nan, _ => nan
  | _, nan => nan
  | num a, num b =>
      if b = 0 then (if a = 0 then nan else if 0 < a then inf else ninf)
      else num (a / b)
  | num _, inf => num 0
  | num _, ninf => num 0
  | inf, num b => if 0 ≤ b then inf else ninf
  | ninf, num b => if 0 ≤ b then ninf else inf
  | inf, inf => nan
  | inf, ninf => nan
  | ninf, inf => nan
  | ninf, ninf => nan

end JsNum

/-- A JavaScript prop value: a number, a string, `null` or `undefined`. -/
inductive JsVal where
  | n (x : JsNum)
  | str (s : String)
  | nullV
  | undef
deriving DecidableEq, Repr

namespace JsVal

/-- JS truthiness: `0`, `NaN`, `""`, `null` and `undefined` are falsy. -/
def truthy : JsVal → Bool
  | n (.num q) => decide (q ≠ 0)
  | n .nan => false
  | n .inf => true
  | n .ninf => true
  | str s => decide (s ≠ "")
  | nullV => false
  | undef => false

/-- JS `ToNumber` on the values the component handles (numeric strings are
outside the model: the string props used are CSS strings, which give `NaN`). -/
def toNumber : JsVal → JsNum
  | n x => x
  | nullV => .num 0
  | undef => .nan
  | str _ => .nan

/-- The JS test `typeof v === "number"` (true for `NaN` and infinities too). -/
def isNumberType : JsVal → Bool
  | n _ => true
  | _ => false

/-- JS `a || b`. -/
def jsOr (a b : JsVal) : JsVal := if a.truthy then a else b

end JsVal

/-- `metadata.dimensions` of a Sanity image asset. -/
structure Dimensions where
  aspectRatio : JsVal := .undef
deriving DecidableEq, Repr

/-- `metadata` of a Sanity image asset. -/
structure Metadata where
  lqip : JsVal := .undef
  dimensions : Option Dimensions := none
deriving DecidableEq, Repr

/-- A Sanity image asset as the component reads it.  `_ref`/`_id` are the
identity fields tested by the validity check. -/
structure Asset where
  _ref : JsVal := .undef
  _id : JsVal := .undef
  url : String := ""
  extension : String := ""
  mimeType : String := ""
  metadata : Option Metadata := none
deriving DecidableEq, Repr

/-- The `image` prop: an object that may carry an `asset` field. -/
structure Image where
  asset : Option Asset := none
deriving DecidableEq, Repr

/-- `const defaultBreakpoints = [1200, 1000, 800, 600, 400];` -/
def defaultBreakpoints : List JsNum :=
  [.num 1200, .num 1000, .num 800, .num 600, .num 400]

/-- `const DEFAULT_MAX_WIDTH = 1780;` -/
def DEFAULT_MAX_WIDTH : JsNum := .num 1780

/-- `breakPointsToString(image, format, maxWidth, breakPoints)`: filter the
breakpoints to those `<= maxWidth`, build a URL for each at that exact width
and format, render each as `"<url> <bp>w"`, and join with `", "`. -/
def breakPointsToString (buildUrl : Image → JsNum → Option String → String)
    (image : Image) (format : String := "jpg") (maxWidth : JsNum := DEFAULT_MAX_WIDTH)
    (breakPoints : List JsNum := defaultBreakpoints) : String :=
  let bpMap := (breakPoints.filter fun breakPoint => breakPoint.jsle maxWidth).map
      fun breakPoint =>
        buildUrl image breakPoint (some format) ++ " " ++ breakPoint.jstoString ++ "w"
  String.intercalate ", " bpMap

/-- The component's props after destructuring defaults (`image = {}`,
`maxWidth = DEFAULT_MAX_WIDTH`, `breakPoints = defaultBreakpoints`,
`sizes = ''`) and `defaultProps` (`isFluid: false`, `objectFit: 'cover'`,
`alt: ''`, `height: null`, `width: null`, `className: null`). -/
structure Props where
  image : Image := {}
  isFluid : Bool := false
  objectFit : String := "cover"
  maxWidth : JsNum := DEFAULT_MAX_WIDTH
  width : JsVal := .nullV
  height : JsVal := .nullV
  aspectRatio : JsVal := .undef
  alt : String := ""
  className : Option String := none
  breakPoints : List JsNum := defaultBreakpoints
  loader : Option String := none
  sizes : String := ""
deriving DecidableEq, Repr

/-- The per-instance React state: `shown` models the `show` flag from
`useState(false)` (`show` is reserved in Lean), `inView` the flag from
`useInView({ triggerOnce: true })`.  Both start `false`. -/
structure IState where
  shown : Bool
  inView : Bool
deriving DecidableEq, Repr

/-- The state of a freshly mounted instance. -/
def initState : IState := { shown := false, inView := false }

/-- The two asynchronous signals an instance can receive: the viewport
intersection signal and the final image's load-completion signal. -/
inductive Event where
  | visibility
  | load
deriving DecidableEq, Repr

/-- Effect of one signal on the instance state: intersection sets `inView`
(and `triggerOnce` keeps it set), the final image's `onLoad` handler runs
`setShow(true)`. -/
def step (s : IState) : Event → IState
  | .visibility => { s with inView := true }
  | .load => { s with shown := true }

/-- The state after a sequence of signals. -/
def steps (s : IState) (es : List Event) : IState := es.foldl step s

/-- A `<source>` element of the `<picture>`. -/
structure SourceEl where
  type : String
  srcSet : String
  sizes : String
deriving DecidableEq, Repr

/-- The final `<img>` element inside the `<picture>` (its `onLoad` handler
is the `Event.load` signal). -/
structure ImgEl where
  src : String
  srcSet : String
  alt : String
  sizes : String
  coverFit : Bool
  fluidClass : Bool
deriving DecidableEq, Repr

/-- The placeholder layer: a caller-supplied loader node, or the lqip
`<img>` fallback. -/
inductive Placeholder where
  | custom (loader : String)
  | lqipImg (src : JsVal) (coverFit : Bool)
deriving DecidableEq, Repr

/-- The element tree of the main (raster) branch: the outer `div` with its
width/height style, the hider layer with the placeholder, the optional
fluid-mode aspect-ratio spacer, and the `<picture>` whose sources and final
image are attached only when `inView`. -/
structure Tree where
  widthStyle : JsVal
  heightStyle : JsVal
  hiderHidden : Bool
  placeholder : Placeholder
  spacerPaddingTop : Option JsNum
  pictureShown : Bool
  sources : Option (SourceEl × SourceEl × ImgEl)
deriving DecidableEq, Repr

/-- What one render pass produces. -/
inductive Rendered where
  | nullRender (logged : String)
  | thrown (msg : String)
  | plainImg (src : String) (alt : String) (className : Option String)
  | tree (t : Tree)
deriving DecidableEq, Repr

/-- Whether the output carries the network-fetching `<source>`/`<img>`
group of the `<picture>` element. -/
def Rendered.hasNetworkSources : Rendered → Bool
  | .tree t => t.sources.isSome
  | _ => false

/-- Whether the output is the single plain `<img>` of the svg branch. -/
def Rendered.isPlainImg : Rendered → Bool
  | .plainImg _ _ _ => true
  | _ => false

/-- The `src` of the final `<img>` inside the `<picture>`, when attached. -/
def Rendered.imgSrc : Rendered → Option String
  | .tree t => t.sources.map fun sp => sp.2.2.src
  | _ => none

/-- The element tree built by the main return of the component (everything
after the early returns).  Mirrors the source: the metadata destructuring
with defaults, the fluid/fixed `computedWidth`/`computedHeight` and source
sets, the fallback `url` at `maxWidth` with no `.format(...)` call, and the
JSX structure. -/
def pictureTree (buildUrl : Image → JsNum → Option String → String)
    (p : Props) (asset : Asset) (s : IState) : Tree :=
  let image := p.image
  let metadata := asset.metadata.getD {}
  let lqip := if metadata.lqip = JsVal.undef then JsVal.str "" else metadata.lqip
  let dimensions := metadata.dimensions.getD {}
  let extension := asset.extension
  let mimeType := asset.mimeType
  let fixedWidth : JsNum :=
    if p.width.isNumberType then p.width.toNumber else p.maxWidth
  let computedWidth : JsVal := if p.isFluid then .str "100%" else .n fixedWidth
  let computedHeight : JsVal :=
    if p.isFluid then (if !p.height.truthy then .str "100%" else p.height)
    else (if p.height.truthy then p.height
          else .n (JsNum.div p.width.toNumber dimensions.aspectRatio.toNumber))
  let webpSrcSet : String :=
    if p.isFluid then breakPointsToString buildUrl image "webp" p.maxWidth p.breakPoints
    else breakPointsToString buildUrl image "webp" fixedWidth p.breakPoints
  let defaultSrcSet : String :=
    if p.isFluid then breakPointsToString buildUrl image extension p.maxWidth p.breakPoints
    else breakPointsToString buildUrl image extension fixedWidth p.breakPoints
  let url : String := buildUrl image p.maxWidth none
  { widthStyle := computedWidth
    heightStyle := computedHeight
    hiderHidden := s.shown
    placeholder :=
      match p.loader with
      | some l => .custom l
      | none => .lqipImg (lqip.jsOr (.str "")) (decide (p.objectFit = "cover"))
    spacerPaddingTop :=
      if p.isFluid then
        some (JsNum.div (.num 100) ((p.aspectRatio.jsOr dimensions.aspectRatio).toNumber))
      else none
    pictureShown := s.shown
    sources :=
      if s.inView then
        some ({ type := "image/webp", srcSet := webpSrcSet, sizes := p.sizes },
              { type := mimeType, srcSet := defaultSrcSet, sizes := p.sizes },
              { src := url, srcSet := defaultSrcSet, alt := p.alt, sizes := p.sizes,
                coverFit := decide (p.objectFit = "cover"), fluidClass := p.isFluid })
      else none }

/-- One render pass of `PictureAsset`, in the source's order: the validity
check (`console.error` + `return null`), the sizing precondition (`throw`),
the svg early return, then the main tree. -/
def render (buildUrl : Image → JsNum → Option String → String)
    (p : Props) (s : IState) : Rendered :=
  match p.image.asset with
  | none => .nullRender "Not a valid sanity image asset"
  | some asset =>
    if !(asset._ref.truthy || asset._id.truthy) then
      .nullRender "Not a valid sanity image asset"
    else if !p.isFluid && !p.width.truthy && !p.height.truthy then
      .thrown "Picture Asset component requires one of isFluid or width or height"
    else if asset.extension = "svg" then
      .plainImg asset.url p.alt p.className
    else
      .tree (pictureTree buildUrl p asset s)

/-- The conditions under which a render pass reaches the main raster tree. -/
def reachesPicture (p : Props) : Bool :=
  match p.image.asset with
  | none => false
  | some asset =>
      (asset._ref.truthy || asset._id.truthy)
      && (p.isFluid || p.width.truthy || p.height.truthy)
      && !(decide (asset.extension = "svg"))

/-- The two `srcSet` strings of the attached `<source>` elements (modern
format first, native format second), when they are attached. -/
def Rendered.srcSets : Rendered → Option (String × String)
  | .tree t => t.sources.map fun sp => (sp.1.srcSet, sp.2.1.srcSet)
  | _ => none

/-- The fluid-mode aspect-ratio spacer's `paddingTop` value, when the
output is the main tree and the spacer is present. -/
def Rendered.spacerPad : Rendered → Option JsNum
  | .tree t => t.spacerPaddingTop
  | _ => none

/-- A trivial URL builder, used to instantiate theorems at concrete inputs. -/
def urlStub : Image → JsNum → Option String → String := fun _ _ _ => "u"

/-- A URL builder that records the requested width and format in the URL,
so that the width actually passed to the builder is observable. -/
def urlProbe : Image → JsNum → Option String → String :=
  fun _ w f => "u:" ++ w.jstoString ++ ":" ++ f.getD "default"

/-- A concrete valid raster asset. -/
def rasterAsset : Asset :=
  { _id := .str "image-abc", extension := "jpg", mimeType := "image/jpeg",
    metadata := some { lqip := .str "data:lqip",
                       dimensions := some { aspectRatio := .n (.num 2) } } }

/-- A concrete valid vector (svg) asset. -/
def svgAsset : Asset :=
  { _ref := .str "image-ref", extension := "svg", url := "https://cdn/example.svg" }

/-- Fluid-mode props over `rasterAsset`. -/
def viewProps : Props := { image := { asset := some rasterAsset }, isFluid := true }

/-- The svg asset with no `isFluid`, `width` or `height`. -/
def c4props : Props := { image := { asset := some svgAsset } }

/-- The svg asset with `isFluid` set. -/
def svgProps : Props := { image := { asset := some svgAsset }, isFluid := true }

/-- The raster asset with no `isFluid`, `width` or `height`. -/
def c5props : Props := { image := { asset := some rasterAsset } }

/-- Fixed-mode props: numeric `width` 400, `maxWidth` left at its default. -/
def c6props : Props := { image := { asset := some rasterAsset }, width := .n (.num 400) }

/-- Fixed-mode props: numeric `width` 400, `maxWidth` left at its default. -/
def c7props : Props := { image := { asset := some rasterAsset }, width := .n (.num 400) }

/-- A valid raster asset whose intrinsic aspect ratio is 0.5. -/
def fluidAsset : Asset :=
  { _id := .str "image-xyz", extension := "jpg", mimeType := "image/jpeg",
    metadata := some { dimensions := some { aspectRatio := .n (.num (1/2)) } } }

/-- Fluid-mode props over `fluidAsset`, with the `aspectRatio` prop unset. -/
def c8props : Props := { image := { asset := some fluidAsset }, isFluid := true }

/-- An asset carrying neither `_ref` nor `_id`. -/
def invalidAsset : Asset := { extension := "jpg" }

/-- Props over `invalidAsset`, otherwise well configured. -/
def c9props : Props := { image := { asset := some invalidAsset }, isFluid := true }

/-! ## Helper lemmas -/

/-- A render pass that passes the validity check, the sizing precondition
and the svg dispatch produces the main tree. -/
theorem render_eq_tree (buildUrl : Image → JsNum → Option String → String)
    (p : Props) (a : Asset) (s : IState)
    (ha : p.image.asset = some a)
    (hid : (a._ref.truthy || a._id.truthy) = true)
    (hsz : (p.isFluid || p.width.truthy || p.height.truthy) = true)
    (hext : a.extension ≠ "svg") :
    render buildUrl p s = Rendered.tree (pictureTree buildUrl p a s) := by
  have h2 : (!p.isFluid && !p.width.truthy && !p.height.truthy) = false := by
    cases hf : p.isFluid <;> cases hw : p.width.truthy <;> cases hh : p.height.truthy <;>
      simp_all
  simp [render, ha, hid, h2, hext]

theorem steps_append (s : IState) (l₁ l₂ : List Event) :
    steps s (l₁ ++ l₂) = steps (steps s l₁) l₂ := by
  simp [steps, List.foldl_append]

theorem step_inView_mono (s : IState) (e : Event) (h : s.inView = true) :
    (step s e).inView = true := by
  cases e <;> simp [step, h]

theorem steps_inView_mono (s : IState) (es : List Event) (h : s.inView = true) :
    (steps s es).inView = true := by
  induction es generalizing s with
  | nil => exact h
  | cons e t ih => exact ih (step s e) (step_inView_mono s e h)

/-- `triggerOnce` semantics: after any trace containing a visibility signal,
`inView` is set and stays set. -/
theorem steps_inView_after_visibility (s : IState) (pre post : List Event) :
    (steps s (pre ++ Event.visibility :: post)).inView = true := by
  rw [steps_append]
  have h : steps (steps s pre) (Event.visibility :: post)
      = steps (step (steps s pre) Event.visibility) post := rfl
  rw [h]
  exact steps_inView_mono _ _ rfl

/-- `shown` is set after a trace exactly when the trace contains a load
signal (or it was set before). -/
theorem steps_shown_iff (s : IState) (es : List Event) :
    (steps s es).shown = true ↔ (s.shown = true ∨ Event.load ∈ es) := by
  induction es generalizing s with
  | nil => simp [steps]
  | cons e t ih =>
      have h : steps s (e :: t) = steps (step s e) t := rfl
      rw [h, ih]
      cases e <;> simp [step]

/-- Mapping breakpoints into `JsNum` commutes with the filter of
`breakPointsToString`. -/
theorem filter_map_num (W : ℚ) (l : List ℚ) :
    ((l.map JsNum.num).filter fun x => x.jsle (JsNum.num W))
      = (l.filter fun b => decide (b ≤ W)).map JsNum.num := by
  induction l with
  | nil => rfl
  | cons b t ih =>
      simp only [List.map_cons, List.filter_cons]
      have hb : JsNum.jsle (JsNum.num b) (JsNum.num W) = decide (b ≤ W) := rfl
      rw [hb]
      cases h : decide (b ≤ W) <;> simp [ih]

/-! ## Claims -/

/-- C1: for every asset, format, width ceiling and breakpoint list, the
source-set computation returns exactly the breakpoints ≤ the ceiling, in
the input's relative order (the retained list is a sublist of the input,
with membership characterised), each rendered as `"<url> <b>w"` with the
URL built at that exact width and format, joined by `", "`; an empty
retained list yields the empty string. -/
theorem C1_sourceSet_exact (buildUrl : Image → JsNum → Option String → String)
    (image : Image) (format : String) (W : ℚ) (breakPoints : List ℚ) :
    (breakPointsToString buildUrl image format (JsNum.num W) (breakPoints.map JsNum.num)
        = String.intercalate ", "
            ((breakPoints.filter fun b => decide (b ≤ W)).map
              fun b => buildUrl image (JsNum.num b) (some format) ++ " " ++ toString b ++ "w"))
    ∧ (breakPoints.filter fun b => decide (b ≤ W)).Sublist breakPoints
    ∧ (∀ b : ℚ, b ∈ (breakPoints.filter fun b => decide (b ≤ W)) ↔ b ∈ breakPoints ∧ b ≤ W)
    ∧ ((breakPoints.filter fun b => decide (b ≤ W)) = [] →
        breakPointsToString buildUrl image format (JsNum.num W) (breakPoints.map JsNum.num)
          = "") := by
  refine ⟨?_, List.filter_sublist _, ?_, ?_⟩
  · simp only [breakPointsToString, filter_map_num, List.map_map]
    rfl
  · intro b; simp [List.mem_filter]
  · intro h
    simp only [breakPointsToString, filter_map_num, h, List.map_nil]
    rfl

/-- C2: for a fresh instance the visibility state starts not-visible; while
not visible the output carries no `<source>`/`<img>` group with network
URLs; after a trace containing a visibility signal (one signal, then any
further signals) the format sources and final image are present and remain
present. -/
theorem C2_visibility_gate (buildUrl : Image → JsNum → Option String → String)
    (p : Props) (h : reachesPicture p = true) :
    initState.inView = false
    ∧ (∀ s : IState, s.inView = false →
        (render buildUrl p s).hasNetworkSources = false)
    ∧ (∀ pre post : List Event,
        (render buildUrl p (steps initState (pre ++ Event.visibility :: post))).hasNetworkSources
          = true) := by
  obtain ⟨a, ha, hid, hsz, hext⟩ :
      ∃ a, p.image.asset = some a ∧ (a._ref.truthy || a._id.truthy) = true
        ∧ (p.isFluid || p.width.truthy || p.height.truthy) = true
        ∧ a.extension ≠ "svg" := by
    unfold reachesPicture at h
    cases hc : p.image.asset with
    | none => rw [hc] at h; exact absurd h (by simp)
    | some a =>
        rw [hc] at h
        simp only [Bool.and_eq_true, Bool.not_eq_true', decide_eq_false_iff_not] at h
        exact ⟨a, rfl, h.1.1, h.1.2, h.2⟩
  refine ⟨rfl, ?_, ?_⟩
  · intro s hs
    rw [render_eq_tree buildUrl p a s ha hid hsz hext]
    simp [Rendered.hasNetworkSources, pictureTree, hs]
  · intro pre post
    have hv := steps_inView_after_visibility initState pre post
    rw [render_eq_tree buildUrl p a _ ha hid hsz hext]
    simp [Rendered.hasNetworkSources, pictureTree, hv]

/-- C2 witness: a concrete fluid raster instance, after exactly one
visibility signal, has the sources attached. -/
theorem C2_witness :
    (render urlStub viewProps (steps initState ([] ++ Event.visibility :: []))).hasNetworkSources
      = true :=
  (C2_visibility_gate urlStub viewProps (by decide)).2.2 [] []

/-- C3: the reveal state starts `Hidden` (`shown = false`); the final
image's load signal sets it `Shown`; a duplicate load signal is a no-op;
no signal un-sets it; and over any trace it is `Shown` exactly when a load
signal has fired. -/
theorem C3_reveal_state (s : IState) (e : Event) (es : List Event) :
    initState.shown = false
    ∧ (step s Event.load).shown = true
    ∧ (s.shown = true → (step s e).shown = true)
    ∧ (s.shown = true → step s Event.load = s)
    ∧ ((steps initState es).shown = true ↔ Event.load ∈ es) := by
  refine ⟨rfl, rfl, ?_, ?_, ?_⟩
  · intro h; cases e <;> simp [step, h]
  · intro h; cases s with | mk sh iv => simp_all [step]
  · rw [steps_shown_iff]; simp [initState]

/-- C4 counterexample: an svg asset with `isFluid` unset and no `width` or
`height` hits the missing-sizing throw (which the source checks before the
svg dispatch) instead of rendering the plain image the claim promises for
every combination of the other options. -/
theorem C4_counterexample :
    render urlStub c4props initState
        = Rendered.thrown "Picture Asset component requires one of isFluid or width or height"
      ∧ (render urlStub c4props initState).isPlainImg = false :=
  ⟨rfl, rfl⟩

/-- C4 (amended): an svg asset with a resolvable identity renders exactly
one plain image element with `src` the asset's URL — no source set, no
lazy gating, no placeholder — provided the sizing precondition (`isFluid`
or a truthy `width` or `height`) is satisfied. -/
theorem C4_svg_plain_img (buildUrl : Image → JsNum → Option String → String)
    (p : Props) (a : Asset) (s : IState)
    (ha : p.image.asset = some a)
    (hid : (a._ref.truthy || a._id.truthy) = true)
    (hsz : (p.isFluid || p.width.truthy || p.height.truthy) = true)
    (hext : a.extension = "svg") :
    render buildUrl p s = Rendered.plainImg a.url p.alt p.className := by
  have h2 : (!p.isFluid && !p.width.truthy && !p.height.truthy) = false := by
    cases hf : p.isFluid <;> cases hw : p.width.truthy <;> cases hh : p.height.truthy <;>
      simp_all
  simp [render, ha, hid, h2, hext]

/-- C4 witness: a concrete svg asset with `isFluid` set renders the plain
image element. -/
theorem C4_witness :
    render urlStub svgProps initState
      = Rendered.plainImg "https://cdn/example.svg" "" none :=
  C4_svg_plain_img urlStub svgProps svgAsset initState rfl (by decide) (by decide) rfl

/-- C5: a valid raster asset with `isFluid` unset and no truthy `width` or
`height` makes the component throw the missing-sizing configuration error
(not a null render). -/
theorem C5_missing_sizing (buildUrl : Image → JsNum → Option String → String)
    (p : Props) (a : Asset) (s : IState)
    (ha : p.image.asset = some a)
    (hid : (a._ref.truthy || a._id.truthy) = true)
    (hraster : a.extension ≠ "svg")
    (hfl : p.isFluid = false) (hw : p.width.truthy = false) (hh : p.height.truthy = false) :
    render buildUrl p s
      = Rendered.thrown "Picture Asset component requires one of isFluid or width or height" := by
  simp [render, ha, hid, hfl, hw, hh]

/-- C5 witness: the concrete raster asset with no sizing configuration
throws. -/
theorem C5_witness :
    render urlStub c5props initState
      = Rendered.thrown "Picture Asset component requires one of isFluid or width or height" :=
  C5_missing_sizing urlStub c5props rasterAsset initState rfl (by decide) (by decide) rfl rfl rfl

/-- C6: on the raster path with sources attached, both the webp and the
native-format source sets are computed against `maxWidth` in fluid mode,
and against the computed rendered width (`width` when it is a number,
otherwise `maxWidth`) in fixed mode. -/
theorem C6_srcset_width_ceiling (buildUrl : Image → JsNum → Option String → String)
    (p : Props) (a : Asset) (s : IState)
    (ha : p.image.asset = some a)
    (hid : (a._ref.truthy || a._id.truthy) = true)
    (hsz : (p.isFluid || p.width.truthy || p.height.truthy) = true)
    (hext : a.extension ≠ "svg")
    (hv : s.inView = true) :
    (render buildUrl p s).srcSets
      = some
          (breakPointsToString buildUrl p.image "webp"
            (if p.isFluid then p.maxWidth
             else if p.width.isNumberType then p.width.toNumber else p.maxWidth)
            p.breakPoints,
           breakPointsToString buildUrl p.image a.extension
            (if p.isFluid then p.maxWidth
             else if p.width.isNumberType then p.width.toNumber else p.maxWidth)
            p.breakPoints) := by
  rw [render_eq_tree buildUrl p a s ha hid hsz hext]
  by_cases hf : p.isFluid <;> simp [Rendered.srcSets, pictureTree, hv, hf]

/-- C6 witness: a concrete fixed-mode instance with numeric width 400. -/
theorem C6_witness :
    (render urlProbe c6props { shown := false, inView := true }).srcSets
      = some
          (breakPointsToString urlProbe c6props.image "webp"
            (if c6props.isFluid then c6props.maxWidth
             else if c6props.width.isNumberType then c6props.width.toNumber else c6props.maxWidth)
            c6props.breakPoints,
           breakPointsToString urlProbe c6props.image rasterAsset.extension
            (if c6props.isFluid then c6props.maxWidth
             else if c6props.width.isNumberType then c6props.width.toNumber else c6props.maxWidth)
            c6props.breakPoints) :=
  C6_srcset_width_ceiling urlProbe c6props rasterAsset { shown := false, inView := true }
    rfl (by decide) (by decide) (by decide) rfl

/-- C7 counterexample: in fixed mode with numeric width 400 (so the active
width ceiling of the claim is 400) the final image's `src` is built at
`maxWidth` 1780 with no format requested, not at the ceiling in the native
format: with a URL builder that records width and format the rendered
`src` is `"u:1780:default"` while the claim predicts `"u:400:jpg"`. -/
theorem C7_counterexample :
    (render urlProbe c7props { shown := false, inView := true }).imgSrc = some "u:1780:default"
    ∧ urlProbe c7props.image (JsNum.num 400) (some "jpg") = "u:400:jpg"
    ∧ ("u:1780:default" : String) ≠ "u:400:jpg" := by
  refine ⟨?_, ?_, ?_⟩ <;> decide

/-- C7 (amended): on the raster path with sources attached, the final
image's fallback `src` is the single URL the builder returns at `maxWidth`
with no explicit format, in both fluid and fixed mode. -/
theorem C7_default_src_maxWidth (buildUrl : Image → JsNum → Option String → String)
    (p : Props) (a : Asset) (s : IState)
    (ha : p.image.asset = some a)
    (hid : (a._ref.truthy || a._id.truthy) = true)
    (hsz : (p.isFluid || p.width.truthy || p.height.truthy) = true)
    (hext : a.extension ≠ "svg")
    (hv : s.inView = true) :
    (render buildUrl p s).imgSrc = some (buildUrl p.image p.maxWidth none) := by
  rw [render_eq_tree buildUrl p a s ha hid hsz hext]
  simp [Rendered.imgSrc, pictureTree, hv]

/-- C7 witness: the fixed-mode instance's fallback `src` equals the builder
output at the default `maxWidth` with no format. -/
theorem C7_witness :
    (render urlProbe c7props { shown := false, inView := true }).imgSrc
      = some (urlProbe c7props.image c7props.maxWidth none) :=
  C7_default_src_maxWidth urlProbe c7props rasterAsset { shown := false, inView := true }
    rfl (by decide) (by decide) (by decide) rfl

/-- C8: in fluid mode the spacer's reservation is `100 / aspectRatio` when
the `aspectRatio` option carries a nonzero number, and `100 /
dimensions.aspectRatio` when the option is unset and the asset's intrinsic
ratio is a nonzero number. -/
theorem C8_spacer_reservation (buildUrl : Image → JsNum → Option String → String)
    (p : Props) (a : Asset) (s : IState)
    (ha : p.image.asset = some a)
    (hid : (a._ref.truthy || a._id.truthy) = true)
    (hsz : (p.isFluid || p.width.truthy || p.height.truthy) = true)
    (hext : a.extension ≠ "svg")
    (hfluid : p.isFluid = true) :
    (∀ q : ℚ, q ≠ 0 → p.aspectRatio = JsVal.n (JsNum.num q) →
        (render buildUrl p s).spacerPad = some (JsNum.num (100 / q)))
    ∧ (∀ r : ℚ, r ≠ 0 → p.aspectRatio = JsVal.undef →
        ((a.metadata.getD {}).dimensions.getD {}).aspectRatio = JsVal.n (JsNum.num r) →
        (render buildUrl p s).spacerPad = some (JsNum.num (100 / r))) := by
  rw [render_eq_tree buildUrl p a s ha hid hsz hext]
  constructor
  · intro q hq har
    simp [Rendered.spacerPad, pictureTree, hfluid, har, JsVal.jsOr, JsVal.truthy,
      JsVal.toNumber, JsNum.div, hq]
  · intro r hr har hdim
    simp [Rendered.spacerPad, pictureTree, hfluid, har, hdim, JsVal.jsOr, JsVal.truthy,
      JsVal.toNumber, JsNum.div, hr]

/-- C8 witness: with `aspectRatio` unset and `dimensions.aspectRatio = 0.5`
the reservation is 200%. -/
theorem C8_witness :
    (render urlStub c8props initState).spacerPad = some (JsNum.num 200) := by
  have h := (C8_spacer_reservation urlStub c8props fluidAsset initState
      rfl (by decide) (by decide) (by decide) rfl).2 (1/2) (by norm_num) rfl rfl
  rw [h]
  simp only [Option.some.injEq, JsNum.num.injEq]
  norm_num

/-- C9: an asset carrying neither `_ref` nor `_id` makes the component log
the invalid-asset error and render null, whatever the other options, and
it does not throw. -/
theorem C9_invalid_asset (buildUrl : Image → JsNum → Option String → String)
    (p : Props) (a : Asset) (s : IState)
    (ha : p.image.asset = some a)
    (href : a._ref = JsVal.undef) (hid : a._id = JsVal.undef) :
    render buildUrl p s = Rendered.nullRender "Not a valid sanity image asset" := by
  simp [render, ha, href, hid, JsVal.truthy]

/-- C9 witness: a concrete identity-less asset renders null with the
logged error. -/
theorem C9_witness :
    render urlStub c9props initState = Rendered.nullRender "Not a valid sanity image asset" :=
  C9_invalid_asset urlStub c9props invalidAsset initState rfl rfl rfl

/-- C10: when the `image` prop is omitted (defaulting to `{}`) or carries
no `asset` field, the component takes the invalid-asset path — logging and
returning null — before the sizing check, so it never throws even with no
sizing configuration; field access does not crash (the model is total). -/
theorem C10_missing_image (buildUrl : Image → JsNum → Option String → String)
    (p : Props) (s : IState)
    (ha : p.image.asset = none) :
    render buildUrl p s = Rendered.nullRender "Not a valid sanity image asset" := by
  simp [render, ha]

/-- C10 witness: the all-default props (image `{}`, no sizing configuration
at all) render null with the logged error rather than throwing. -/
theorem C10_witness :
    render urlStub {} initState = Rendered.nullRender "Not a valid sanity image asset" :=
  C10_missing_image urlStub {} initState rfl

end PictureAsset
